import Mathlib

/-!
Verification of the ml-service scoring core (model_config.py, lead_scorer.py,
feature_engineering.py, scoring_service.py) against its specification.

Python floats are modelled by `ℚ`; Python dicts by association lists with
first-match lookup and in-place key replacement, mirroring dict update
semantics.  Fallible code returns `Except String`.
-/

deriving instance DecidableEq for Except

set_option synthInstance.maxSize 2048
set_option synthInstance.maxHeartbeats 1000000

namespace MLService

/-- Values stored in a vertical's configuration dictionary (`FEATURE_CONFIG`
entries are lists of names, name-to-number dicts, name-to-name dicts; a
configured threshold would be a bare number). -/
inductive ConfigVal where
  | strList (xs : List String)
  | ratDict (xs : List (String × ℚ))
  | strDict (xs : List (String × String))
  | num (q : ℚ)
deriving DecidableEq, Repr

/-- A Python dict from string keys to config values, as an association list. -/
abbrev Config := List (String × ConfigVal)

/-- First-match association-list lookup (`d[k]` / `d.get(k)`). -/
def alookup {β : Type} (k : String) : List (String × β) → Option β
  | [] => none
  | (k', v) :: r => if k' = k then some v else alookup k r

/-- `d.get(k, default)`. -/
def agetD {β : Type} (k : String) (l : List (String × β)) (d : β) : β :=
  (alookup k l).getD d

/-- `d[k] = v`: replace in place if the key exists, else append. -/
def aset {β : Type} (k : String) (v : β) : List (String × β) → List (String × β)
  | [] => [(k, v)]
  | (k', v') :: r => if k' = k then (k, v) :: r else (k', v') :: aset k v r

/-- `base.update(new)` for Python dicts. -/
def dictUpdate (base new : Config) : Config :=
  new.foldl (fun acc kv => aset kv.1 kv.2 acc) base

/-- The keys of a dict, in insertion order. -/
def keysOf {β : Type} (l : List (String × β)) : List String := l.map Prod.fst

/-- `FEATURE_CONFIG['auto']` from model_config.py. -/
def autoConfig : Config :=
  [ ("numerical_features", .strList ["age", "driving_years", "vehicle_age", "annual_mileage"]),
    ("categorical_features", .strList ["vehicle_make", "vehicle_model", "usage_type", "coverage_type"]),
    ("text_features", .strList ["occupation", "location"]),
    ("feature_weights", .ratDict [("age", 15/100), ("driving_years", 2/10), ("vehicle_age", 1/10)]),
    ("preprocessing", .strDict [("scaling", "standard"), ("encoding", "label")]) ]

/-- `FEATURE_CONFIG['home']` from model_config.py. -/
def homeConfig : Config :=
  [ ("numerical_features", .strList ["property_age", "square_footage", "property_value"]),
    ("categorical_features", .strList ["construction_type", "roof_type", "property_type"]),
    ("text_features", .strList ["address", "security_features"]),
    ("feature_weights", .ratDict [("property_value", 25/100), ("property_age", 15/100)]),
    ("preprocessing", .strDict [("scaling", "minmax"), ("encoding", "onehot")]) ]

/-- `FEATURE_CONFIG`: the per-vertical default configurations.  The source
defines entries only for `auto` and `home`. -/
def FEATURE_CONFIG : List (String × Config) :=
  [("auto", autoConfig), ("home", homeConfig)]

/-- `DEFAULT_SCORING_THRESHOLD` from model_config.py. -/
def DEFAULT_SCORING_THRESHOLD : ℚ := 65/100

/-- `CONFIG_VERSION` from model_config.py: a dotted version *string*. -/
def CONFIG_VERSION : String := "1.0.0"

/-- Split a character list on `'.'` (segments, in order). -/
def splitOnDot : List Char → List (List Char)
  | [] => [[]]
  | c :: rest =>
    match splitOnDot rest with
    | [] => [[]]
    | seg :: segs => if c = '.' then [] :: seg :: segs else (c :: seg) :: segs

def digitsVal : List Char → Option ℕ
  | [] => some 0
  | c :: cs =>
    if c.isDigit then
      match digitsVal cs with
      | some n => some ((c.toNat - 48) * 10 ^ cs.length + n)
      | none => none
    else none

/-- The value of a non-empty all-digit segment. -/
def digitsToNat (cs : List Char) : Option ℕ :=
  if cs.isEmpty then none else digitsVal cs

/-- Python's `float()` on a non-negative decimal literal: digit segments with
at most one dot.  `float('1.0')` is 1.0; `float('1.0.0')` has two dots and
raises ValueError, modelled as `none`.  (Signs, exponents and whitespace are
not needed for the strings this program parses.) -/
def pyFloat (s : String) : Option ℚ :=
  match splitOnDot s.data with
  | [i] => (digitsToNat i).map (fun n => (n : ℚ))
  | [i, f] =>
    match digitsToNat i, digitsToNat f with
    | some ip, some fp => some ((ip : ℚ) + (fp : ℚ) / ((10 : ℚ) ^ f.length))
    | _, _ => none
  | _ => none

/-- The required configuration keys checked by `_validate_configuration`. -/
def requiredKeys : List String :=
  ["numerical_features", "categorical_features", "text_features",
   "feature_weights", "preprocessing"]

/-- `isinstance(v, (list, dict))`: every config value except a bare number. -/
def ConfigVal.isListOrDict : ConfigVal → Bool
  | .num _ => false
  | _ => true

/-- `ModelConfig._validate_configuration`: all required keys present and of
list/dict kind. -/
def validateConfiguration (cfg : Config) : Except String Unit :=
  if requiredKeys.all (fun k => (alookup k cfg).isSome) then
    if requiredKeys.all (fun k =>
        match alookup k cfg with
        | some v => v.isListOrDict
        | none => false) then
      .ok ()
    else .error "Invalid configuration value types"
  else .error "Missing required configuration keys"

/-- `ModelConfig._validate_config_override`: override keys must be a subset of
the vertical's default key set. -/
def validateConfigOverride (vertical : String) (cfg : Config) : Except String Unit :=
  let allowed := keysOf ((alookup vertical FEATURE_CONFIG).getD [])
  let invalid := (keysOf cfg).filter (fun k => ¬ allowed.contains k)
  if invalid.isEmpty then .ok ()
  else .error "Invalid configuration keys"

/-- In-memory state of a `ModelConfig` instance.  The cache holds derived
numeric values (the scoring threshold); model paths touch the filesystem and
are outside this model. -/
structure ModelConfig where
  vertical : String
  config : Config
  enableCaching : Bool
  cache : List (String × ℚ)
  version : ℚ
deriving DecidableEq, Repr

/-- `ModelConfig.__init__`: reject unsupported verticals, set
`_version = float(CONFIG_VERSION)`, apply a validated override if one is
supplied (an empty dict is falsy and skipped), then check configuration
completeness.  Because `CONFIG_VERSION` is the two-dot string `'1.0.0'`, the
`float()` call raises ValueError, so construction never succeeds for any
vertical; the override and completeness steps are translated for completeness
but are dead code in the source.  (CPython's message quotes the literal; the
quotes are omitted here.) -/
def ModelConfig.init (vertical : String) (configOverride : Option Config)
    (enableCaching : Bool) : Except String ModelConfig :=
  match alookup vertical FEATURE_CONFIG with
  | none => .error ("Unsupported insurance vertical: " ++ vertical)
  | some base =>
    match pyFloat CONFIG_VERSION with
    | none => .error ("could not convert string to float: " ++ CONFIG_VERSION)
    | some ver =>
      let merged : Except String Config :=
        match configOverride with
        | none => .ok base
        | some o =>
          if o.isEmpty then .ok base
          else
            match validateConfigOverride vertical o with
            | .error e => .error e
            | .ok _ => .ok (dictUpdate base o)
      match merged with
      | .error e => .error e
      | .ok cfg =>
        match validateConfiguration cfg with
        | .error e => .error e
        | .ok _ =>
          .ok { vertical := vertical, config := cfg, enableCaching := enableCaching,
                cache := [], version := ver }

/-- `ModelConfig.get_scoring_threshold`: cached lookup of the configured
threshold, defaulting to 0.65, range-checked to [0,1].  A non-numeric
configured value fails (the source's comparison would raise). -/
def ModelConfig.getScoringThreshold (m : ModelConfig) :
    Except String (ℚ × ModelConfig) :=
  match (if m.enableCaching then alookup "scoring_threshold" m.cache else none) with
  | some t => .ok (t, m)
  | none =>
    let tv : Option ℚ :=
      match alookup "scoring_threshold" m.config with
      | some (.num q) => some q
      | some _ => none
      | none => some DEFAULT_SCORING_THRESHOLD
    match tv with
    | none => .error "Invalid scoring threshold"
    | some t =>
      if 0 ≤ t ∧ t ≤ 1 then
        .ok (t, { m with cache := if m.enableCaching then aset "scoring_threshold" t m.cache
                                  else m.cache })
      else .error "Invalid scoring threshold"

/-- `ModelConfig.update_config`: validate the override keys, then apply the
update, bump the version by 0.1 and clear the cache; if persistence is
requested and the backing write fails (`persistOk = false`), only the config
dict is rolled back before the error is re-raised.  The returned state is the
instance's observable state after the call, whether it succeeded or raised. -/
def ModelConfig.updateConfig (m : ModelConfig) (newConfig : Config)
    (persist : Bool) (persistOk : Bool) : Except String Bool × ModelConfig :=
  match validateConfigOverride m.vertical newConfig with
  | .error e => (.error e, m)
  | .ok _ =>
    let m1 : ModelConfig :=
      { m with config := dictUpdate m.config newConfig,
               version := m.version + 1/10,
               cache := if m.enableCaching then [] else m.cache }
    if persist ∧ ¬ persistOk then
      (.error "Failed to update configuration", { m1 with config := m.config })
    else
      (.ok true, m1)

/-- `PRICE_MULTIPLIERS` from lead_scorer.py. -/
def PRICE_MULTIPLIERS : List (String × ℚ) :=
  [("auto", 1), ("home", 12/10), ("health", 15/10), ("life", 18/10),
   ("renters", 8/10), ("commercial", 2)]

/-- `MARKET_ADJUSTMENTS` from lead_scorer.py. -/
def MARKET_ADJUSTMENTS : List (String × ℚ) :=
  [("peak_hours", 12/10), ("off_peak", 9/10), ("weekend", 11/10), ("holiday", 13/10)]

/-- Python's `round(q, 2)`.  Half-way cases are modelled with `round`
(half-up); the source's banker's rounding differs only at exact half-cent
values, which no statement here depends on. -/
def round2 (q : ℚ) : ℚ := (round (q * 100) : ℤ) / 100

/-- `1 + (0.1 * (month in [1, 4, 7, 10]))` from `calculate_price`. -/
def seasonalFactor (month : ℕ) : ℚ := if month ∈ [1, 4, 7, 10] then 1 + 1/10 else 1

/-- `LeadScorer.calculate_price`: base 50 + score·100, multiplied by the
vertical multiplier, by each supplied condition matching a known market
adjustment, and by the seasonal factor; clamped to [25, 500] and rounded to
two decimals.  The current month is passed explicitly (the source reads the
wall clock). -/
def calculate_price (vertical : String) (score : ℚ) (marketConditions : List String)
    (month : ℕ) : ℚ :=
  let base0 := 50 + score * 100
  let base1 := base0 * agetD vertical PRICE_MULTIPLIERS 1
  let base2 := marketConditions.foldl
    (fun b c =>
      match alookup c MARKET_ADJUSTMENTS with
      | some adj => b * adj
      | none => b) base1
  let base3 := base2 * seasonalFactor month
  round2 (min (max base3 25) 500)

/-- The product of the market adjustments matched by the supplied conditions
(an unmatched condition contributes a factor of 1). -/
def conditionFactor (marketConditions : List String) : ℚ :=
  (marketConditions.map (fun c => agetD c MARKET_ADJUSTMENTS 1)).prod

/-- The pre-clamp price as the specification decomposes it: base times
vertical multiplier times matched market adjustments times seasonal factor. -/
def preClampPrice (vertical : String) (score : ℚ) (marketConditions : List String)
    (month : ℕ) : ℚ :=
  (50 + score * 100) * agetD vertical PRICE_MULTIPLIERS 1
    * conditionFactor marketConditions * seasonalFactor month

/-- `LeadScorer._calculate_confidence`: the fixed tier lookup. -/
def calculate_confidence (score : ℚ) : ℚ :=
  if score > 8/10 ∨ score < 2/10 then 9/10
  else if 4/10 ≤ score ∧ score ≤ 6/10 then 7/10
  else 8/10

theorem foldl_market_adjust (conds : List String) (b : ℚ) :
    conds.foldl
      (fun x c =>
        match alookup c MARKET_ADJUSTMENTS with
        | some adj => x * adj
        | none => x) b
    = b * conditionFactor conds := by
  induction conds generalizing b with
  | nil => simp [conditionFactor]
  | cons c cs ih =>
    simp only [List.foldl_cons]
    rw [ih]
    cases h : alookup c MARKET_ADJUSTMENTS with
    | none => simp [conditionFactor, agetD, h]
    | some adj => simp [conditionFactor, agetD, h]; ring

theorem round_mono_rat {x y : ℚ} (h : x ≤ y) : round x ≤ round y := by
  rw [round_eq, round_eq]
  exact Int.floor_mono (by linarith)

theorem round2_bounds {x : ℚ} (h1 : 25 ≤ x) (h2 : x ≤ 500) :
    25 ≤ round2 x ∧ round2 x ≤ 500 := by
  have hlo : (2500 : ℤ) ≤ round (x * 100) := by
    have h := round_mono_rat (show (2500 : ℚ) ≤ x * 100 by linarith)
    simpa using h
  have hhi : round (x * 100) ≤ (50000 : ℤ) := by
    have h := round_mono_rat (show x * 100 ≤ (50000 : ℚ) by linarith)
    simpa using h
  have hlo' : (2500 : ℚ) ≤ ((round (x * 100) : ℤ) : ℚ) := by exact_mod_cast hlo
  have hhi' : ((round (x * 100) : ℤ) : ℚ) ≤ 50000 := by exact_mod_cast hhi
  unfold round2
  constructor <;> linarith

/-! ## Feature engineering (feature_engineering.py)

Lead batches carry one entry per column.  Text cells are modelled as token
lists, i.e. after `_clean_text` (lower-casing and punctuation stripping) and
whitespace tokenization.  Matrices are column-major (`np.hstack` concatenates
the column lists of its blocks); the feature vector of row `r` is the `r`-th
entry of every column in order. -/

/-- One column of a raw lead batch. -/
inductive Column where
  | nums (cells : List (Option ℚ))
  | strs (cells : List String)
  | texts (cells : List (List String))
deriving DecidableEq, Repr

/-- A raw lead batch: a DataFrame as a map from column name to column. -/
abbrev Batch := List (String × Column)

/-- Error-propagating map, mirroring a Python `for` loop that can raise. -/
def mapE {α β : Type} (f : α → Except String β) : List α → Except String (List β)
  | [] => .ok []
  | a :: as =>
    match f a with
    | .error e => .error e
    | .ok b =>
      match mapE f as with
      | .error e => .error e
      | .ok bs => .ok (b :: bs)

/-- The string list stored under a config key (the feature-name lists). -/
def strListOf (k : String) (cfg : Config) : List String :=
  match alookup k cfg with
  | some (.strList xs) => xs
  | _ => []

/-- Lexicographic order on strings by character code, used to model
`LabelEncoder`'s sorted class ordering and sorted vocabularies. -/
def charListLe : List Char → List Char → Bool
  | [], _ => true
  | _ :: _, [] => false
  | a :: as, b :: bs =>
    if a.toNat < b.toNat then true
    else if b.toNat < a.toNat then false
    else charListLe as bs

def insertSorted (x : String) : List String → List String
  | [] => [x]
  | y :: ys => if charListLe x.data y.data then x :: y :: ys else y :: insertSorted x ys

/-- Insertion sort on strings. -/
def sortStrings : List String → List String
  | [] => []
  | x :: xs => insertSorted x (sortStrings xs)

/-- Mean over the non-missing cells (pandas `mean` skips NaN).  An all-missing
column yields NaN in the source; modelled as 0 — no statement depends on it. -/
def meanOf (cells : List (Option ℚ)) : ℚ :=
  let vs := cells.filterMap id
  if vs.isEmpty then 0 else vs.sum / vs.length

/-- `StandardScaler.fit_transform` on one column: zero mean, unit variance.
The square root over ℚ is modelled with `Rat.sqrt`; a zero-variance column is
scaled by 1, as sklearn does.  Values are shape-faithful; no statement below
depends on the scaled magnitudes. -/
def scaleStandard (xs : List ℚ) : List ℚ :=
  let n : ℚ := xs.length
  let m := xs.sum / n
  let v := (xs.map (fun x => (x - m) ^ 2)).sum / n
  let s := Rat.sqrt v
  xs.map (fun x => if s = 0 then x - m else (x - m) / s)

/-- `MinMaxScaler.fit_transform` on one column (constant columns map to 0, as
sklearn scales them by 1 after centering). -/
def scaleMinmax (xs : List ℚ) : List ℚ :=
  match xs.min?, xs.max? with
  | some lo, some hi =>
    if hi = lo then xs.map (fun _ => 0) else xs.map (fun x => (x - lo) / (hi - lo))
  | _, _ => xs

/-- The per-column minimum over non-missing cells (pandas skips NaN). -/
def colMin (cells : List (Option ℚ)) : Option ℚ := (cells.filterMap id).min?

/-- The per-column maximum over non-missing cells. -/
def colMax (cells : List (Option ℚ)) : Option ℚ := (cells.filterMap id).max?

/-- `_validate_numerical_ranges` for one column: compare against the optional
configured `min_values` / `max_values` bound (absent bounds are ±inf). -/
def validateNumericalRange (cfg : Config) (name : String) (cells : List (Option ℚ)) :
    Except String Unit :=
  let bound : String → Option ℚ := fun key =>
    match alookup key cfg with
    | some (.ratDict d) => alookup name d
    | _ => none
  match bound "min_values", colMin cells with
  | some lo, some mn =>
    if mn < lo then .error ("Values below minimum threshold in column: " ++ name)
    else
      match bound "max_values", colMax cells with
      | some hi, some mx =>
        if mx > hi then .error ("Values above maximum threshold in column: " ++ name)
        else .ok ()
      | _, _ => .ok ()
  | _, _ =>
    match bound "max_values", colMax cells with
    | some hi, some mx =>
      if mx > hi then .error ("Values above maximum threshold in column: " ++ name)
      else .ok ()
    | _, _ => .ok ()

/-- The configured scaling method, `self._feature_config['preprocessing']['scaling']`. -/
def scalingMethod (cfg : Config) : Option String :=
  match alookup "preprocessing" cfg with
  | some (.strDict d) => alookup "scaling" d
  | _ => none

/-- `preprocess_numerical` on one column: range-validate, impute missing cells
with the batch mean, then scale by the configured method. -/
def preprocessNumericalCol (cfg : Config) (scaling : String) (name : String)
    (cells : List (Option ℚ)) : Except String (List ℚ) :=
  match validateNumericalRange cfg name cells with
  | .error e => .error e
  | .ok _ =>
    let m := meanOf cells
    let filled := cells.map (fun c => c.getD m)
    .ok (if scaling = "standard" then scaleStandard filled else scaleMinmax filled)

/-- `FeatureEngineer.preprocess_numerical`: one scaled column per numerical
feature. -/
def preprocess_numerical (cfg : Config) (cols : List (String × List (Option ℚ))) :
    Except String (List (List ℚ)) :=
  match scalingMethod cfg with
  | none => .error "Missing preprocessing configuration"
  | some sc => mapE (fun nc => preprocessNumericalCol cfg sc nc.1 nc.2) cols

/-- Occurrences of `v` in `xs` (`value_counts`). -/
def countOcc (xs : List String) (v : String) : ℕ :=
  (xs.filter (fun x => x == v)).length

/-- `min_category_frequency` with its default of 10. -/
def minCategoryFrequency (cfg : Config) : ℚ :=
  match alookup "min_category_frequency" cfg with
  | some (.num q) => q
  | _ => 10

/-- Rare-category bucketing: categories occurring fewer than `minFreq` times
within the batch become `"Other"`. -/
def bucketRare (minFreq : ℚ) (xs : List String) : List String :=
  xs.map (fun x => if (countOcc xs x : ℚ) < minFreq then "Other" else x)

/-- `LabelEncoder.fit_transform` on one bucketed column, together with the
per-column encoder state it leaves behind.  The source creates the encoder on
first use but then calls `fit_transform` on every call, so the stored classes
are always those of the current batch.  Encoding maps a value to its index in
the sorted class list. -/
def preprocessCategoricalCol (minFreq : ℚ) (encoders : List (String × List String))
    (name : String) (cells : List String) :
    List ℚ × List (String × List String) :=
  let bucketed := bucketRare minFreq cells
  let classes := sortStrings bucketed.dedup
  (bucketed.map (fun v => ((classes.findIdx (fun c => c == v)) : ℚ)),
   aset name classes encoders)

/-- `FeatureEngineer.preprocess_categorical`: one encoded column per
categorical feature, threading the per-column encoder registry. -/
def preprocess_categorical (cfg : Config) (encoders : List (String × List String))
    (cols : List (String × List String)) :
    List (List ℚ) × List (String × List String) :=
  match cols with
  | [] => ([], encoders)
  | (name, cells) :: rest =>
    let (col, encoders') := preprocessCategoricalCol (minCategoryFrequency cfg) encoders name cells
    let (colsOut, encoders'') := preprocess_categorical cfg encoders' rest
    (col :: colsOut, encoders'')

/-- Per-column text vectorizer state, as stored in `self._vectorizers`. -/
inductive Vectorizer where
  | hashing
  | tfidf (vocab : List String)
deriving DecidableEq, Repr

/-- The distinct tokens across all cells of a text column
(`set(' '.join(cleaned_text).split())`). -/
def distinctTokens (cells : List (List String)) : List String :=
  cells.flatten.dedup

/-- A stand-in for the hashing vectorizer's bucket function (the source's
murmur hash is opaque to this model; only the fixed 100-bucket width matters). -/
def simpleHash (s : String) : ℕ :=
  s.data.foldl (fun a c => (a * 31 + c.toNat) % 100) 7

/-- `preprocess_text` on one column: if the distinct-token vocabulary exceeds
10000 use `HashingVectorizer(n_features=100)` (exactly 100 output columns),
else `TfidfVectorizer(max_features=100)`, whose output width is the vocabulary
size capped at 100.  An empty vocabulary raises, as sklearn does.  Cell values
are modelled as token counts (tf-idf weighting and hash signs are abstracted;
every statement below depends only on dimensions and fit state). -/
def preprocessTextCol (vectorizers : List (String × Vectorizer)) (name : String)
    (cells : List (List String)) :
    Except String (List (List ℚ) × List (String × Vectorizer)) :=
  let vocabAll := distinctTokens cells
  if vocabAll.length > 10000 then
    .ok ((List.range 100).map (fun b =>
          cells.map (fun cell => ((cell.filter (fun t => simpleHash t == b)).length : ℚ))),
        aset name .hashing vectorizers)
  else
    let vocab := (sortStrings vocabAll).take 100
    if vocab.isEmpty then .error "empty vocabulary"
    else
      .ok (vocab.map (fun t =>
            cells.map (fun cell => ((cell.filter (fun u => u == t)).length : ℚ))),
          aset name (.tfidf vocab) vectorizers)

/-- `FeatureEngineer.preprocess_text`: the per-column blocks concatenated,
threading the vectorizer registry (the source stores a fresh vectorizer for
the column on every call). -/
def preprocess_text (vectorizers : List (String × Vectorizer))
    (cols : List (String × List (List String))) :
    Except String (List (List ℚ) × List (String × Vectorizer)) :=
  match cols with
  | [] => .ok ([], vectorizers)
  | (name, cells) :: rest =>
    match preprocessTextCol vectorizers name cells with
    | .error e => .error e
    | .ok (block, vectorizers') =>
      match preprocess_text vectorizers' rest with
      | .error e => .error e
      | .ok (blocks, vectorizers'') => .ok (block ++ blocks, vectorizers'')

/-- Instance state of a `FeatureEngineer`: the vertical's feature config and
the per-column transformer registries. -/
structure FeatureEngineer where
  featureConfig : Config
  encoders : List (String × List String)
  vectorizers : List (String × Vectorizer)
  useCache : Bool
deriving DecidableEq, Repr

/-- The process-wide `PREPROCESSOR_CACHE`, keyed by batch content
(`joblib.hash` of the input DataFrame). -/
abbrev TransformCache := List (Batch × (List (List ℚ) × List (String × ℚ)))

def lookupCache (k : Batch) : TransformCache → Option (List (List ℚ) × List (String × ℚ))
  | [] => none
  | (k', v) :: r => if k' = k then some v else lookupCache k r

/-- `FeatureEngineer.__init__`.  The source calls
`ModelConfig.get_feature_config` and `ModelConfig.get_cache_config`, which are
not defined in the source tree.  Modelled from the spec: the feature config is
the vertical's configuration mapping, and the cache config enables caching, so
`_use_cache` equals the `use_cache` argument.  Note the first step,
`ModelConfig(vertical)`, always raises (see `ModelConfig.init`), so this
constructor never succeeds in the source either. -/
def FeatureEngineer.init (vertical : String) (useCache : Bool) :
    Except String FeatureEngineer :=
  match ModelConfig.init vertical none true with
  | .error e => .error e
  | .ok mc =>
    if ["numerical_features", "categorical_features", "text_features"].all
        (fun k => (alookup k mc.config).isSome) then
      .ok { featureConfig := mc.config, encoders := [], vectorizers := [],
            useCache := useCache }
    else .error "Incomplete feature configuration"

/-- The columns `_validate_input_data` requires: the three feature-name lists
concatenated. -/
def requiredColumns (cfg : Config) : List String :=
  strListOf "numerical_features" cfg ++ strListOf "categorical_features" cfg ++
    strListOf "text_features" cfg

/-- `lead_data[self._feature_config['numerical_features']]`: select the
numerical columns in config order. -/
def selectNumCols (features : List String) (b : Batch) :
    Except String (List (String × List (Option ℚ))) :=
  mapE (fun f =>
    match alookup f b with
    | some (.nums cells) => .ok (f, cells)
    | some _ => .error ("Non-numeric data in column: " ++ f)
    | none => .error ("Missing column: " ++ f)) features

/-- Select the categorical columns in config order. -/
def selectStrCols (features : List String) (b : Batch) :
    Except String (List (String × List String)) :=
  mapE (fun f =>
    match alookup f b with
    | some (.strs cells) => .ok (f, cells)
    | some _ => .error ("Non-categorical data in column: " ++ f)
    | none => .error ("Missing column: " ++ f)) features

/-- Select the text columns in config order. -/
def selectTextCols (features : List String) (b : Batch) :
    Except String (List (String × List (List String))) :=
  mapE (fun f =>
    match alookup f b with
    | some (.texts cells) => .ok (f, cells)
    | some _ => .error ("Non-text data in column: " ++ f)
    | none => .error ("Missing column: " ++ f)) features

/-- `FeatureEngineer._calculate_feature_importance`: an unimplemented stub
that returns the empty mapping. -/
def calculateFeatureImportance (_ : List (List ℚ)) : List (String × ℚ) := []

/-- `FeatureEngineer.transform_features`: validate required columns, consult
the content-keyed cache, transform the three groups, and concatenate the
blocks numerical–categorical–text (`np.hstack`, column-major).
`_calculate_feature_importance` returns the empty mapping in the source. -/
def transform_features (fe : FeatureEngineer) (cache : TransformCache)
    (leadData : Batch) (returnImportance : Bool) :
    Except String ((List (List ℚ) × List (String × ℚ)) × FeatureEngineer × TransformCache) :=
  let required := requiredColumns fe.featureConfig
  let missing := required.filter (fun c => (alookup c leadData).isNone)
  if ¬ missing.isEmpty then .error "Missing required columns"
  else
    match (if fe.useCache then lookupCache leadData cache else none) with
    | some res => .ok (res, fe, cache)
    | none =>
      match selectNumCols (strListOf "numerical_features" fe.featureConfig) leadData,
            selectStrCols (strListOf "categorical_features" fe.featureConfig) leadData,
            selectTextCols (strListOf "text_features" fe.featureConfig) leadData with
      | .error e, _, _ => .error e
      | _, .error e, _ => .error e
      | _, _, .error e => .error e
      | .ok numCols, .ok catCols, .ok textCols =>
        match preprocess_numerical fe.featureConfig numCols with
        | .error e => .error e
        | .ok numBlock =>
          let (catBlock, encoders') :=
            preprocess_categorical fe.featureConfig fe.encoders catCols
          match preprocess_text fe.vectorizers textCols with
          | .error e => .error e
          | .ok (textBlock, vectorizers') =>
            let combined := numBlock ++ catBlock ++ textBlock
            let importanceScores : List (String × ℚ) :=
              if returnImportance then calculateFeatureImportance combined else []
            let fe' := { fe with encoders := encoders', vectorizers := vectorizers' }
            let cache' :=
              if fe.useCache then (leadData, (combined, importanceScores)) :: cache
              else cache
            .ok ((combined, importanceScores), fe', cache')

/-- `FeatureEngineer.update_feature_importance`: validate that every score is
in [0,1], merge into the process-wide tracker, then analyze trends.  The
source merges *before* `_analyze_importance_trends` runs, and the trend
analysis reads the already-merged tracker.  Returns the new tracker and the
list of alerts that `_trigger_importance_alert` fires. -/
def update_feature_importance (cfg : Config) (tracker : List (String × ℚ))
    (scores : List (String × ℚ)) :
    Except String (List (String × ℚ) × List (String × ℚ)) :=
  if scores.all (fun p => decide (0 ≤ p.2 ∧ p.2 ≤ 1)) then
    let tracker1 := scores.foldl (fun acc kv => aset kv.1 kv.2 acc) tracker
    let threshold : ℚ :=
      match alookup "importance_change_threshold" cfg with
      | some (.num q) => q
      | _ => 2/10
    let alerts := scores.filterMap (fun p =>
      match alookup p.1 tracker1 with
      | some prev => if |p.2 - prev| > threshold then some (p.1, |p.2 - prev|) else none
      | none => none)
    .ok (tracker1, alerts)
  else .error "Importance scores must be between 0 and 1"

/-! ## Scoring service (scoring_service.py)

The service is modelled as explicit state passing.  Results of the underlying
model — loading an artifact at scorer construction and the scorer's
`score_lead` — are external effects and enter as `Except`-valued oracles; the
breaker, registry and pricing logic around them is translated from the
source. -/

/-- Modelled from the spec: `ModelConfig.get_market_adjustments` is called
from scoring_service.py but not defined in the source tree.  Per the spec
(glossary, §4.3), the market conditions and their factors are the fixed
`MARKET_ADJUSTMENTS` table. -/
def ModelConfig.getMarketAdjustments (_ : ModelConfig) : List (String × ℚ) :=
  MARKET_ADJUSTMENTS

/-- What `LeadScorer.score_lead` hands back to the service. -/
structure ScorerOut where
  score : ℚ
  confidence : ℚ
  featureImportance : List (String × ℚ)
deriving DecidableEq, Repr

/-- A consolidated scoring response.  `originalScore` is absent from the
fallback dict and `fallback` absent (hence false) from the success dict. -/
structure ScoringResult where
  score : ℚ
  originalScore : Option ℚ
  confidence : ℚ
  price : ℚ
  marketFactors : List (String × ℚ)
  featureImportance : List (String × ℚ)
  modelVersion : String
  threshold : ℚ
  fallback : Bool
deriving DecidableEq, Repr

/-- The mutable state of a `ScoringService` instance: the scorer registry and
the per-vertical thresholds, market adjustments, consecutive-error counters
and circuit-breaker flags. -/
structure ServiceState where
  registered : List String
  thresholds : List (String × ℚ)
  marketAdjustments : List (String × List (String × ℚ))
  errorCounts : List (String × ℕ)
  circuitOpen : List (String × Bool)
deriving DecidableEq, Repr

/-- The state of a freshly constructed `ScoringService`. -/
def ServiceState.fresh : ServiceState :=
  { registered := [], thresholds := [], marketAdjustments := [],
    errorCounts := [], circuitOpen := [] }

/-- `ScoringService._record_error`: bump the consecutive-error counter and
open the breaker at 5. -/
def record_error (st : ServiceState) (v : String) : ServiceState :=
  let n := agetD v st.errorCounts 0 + 1
  let st1 := { st with errorCounts := aset v n st.errorCounts }
  if n ≥ 5 then { st1 with circuitOpen := aset v true st1.circuitOpen } else st1

/-- `ScoringService._record_success`: reset the counter and close the breaker. -/
def record_success (st : ServiceState) (v : String) : ServiceState :=
  { st with errorCounts := aset v 0 st.errorCounts,
            circuitOpen := aset v false st.circuitOpen }

/-- `ScoringService._get_fallback_score`. -/
def get_fallback_score (st : ServiceState) (v : String) : ScoringResult :=
  { score := 1/2, originalScore := none, confidence := 3/10, price := 75,
    marketFactors := [], featureImportance := [], modelVersion := "fallback",
    threshold := agetD v st.thresholds (65/100), fallback := true }

/-- `ScoringService._apply_market_adjustments`: multiply the score by every
configured adjustment value when confidence is at least 0.8, then
`np.clip(·, 0, 1)`. -/
def apply_market_adjustments (st : ServiceState) (v : String)
    (score confidence : ℚ) : ℚ :=
  let adjustments := agetD v st.marketAdjustments []
  let adjusted := adjustments.foldl
    (fun s fv => if confidence ≥ 8/10 then s * fv.2 else s) score
  min (max adjusted 0) 1

/-- `ScoringService._calculate_price`: base 50 + score·100, the vertical
multiplier, then a ±10% band from the average feature importance; clamp to
[25, 500] and round to cents. -/
def service_calculate_price (vertical : String) (score : ℚ)
    (featureImportance : List (String × ℚ)) : ℚ :=
  let base0 := 50 + score * 100
  let base1 := base0 * agetD vertical PRICE_MULTIPLIERS 1
  let base2 :=
    if featureImportance.isEmpty then base1
    else
      let avg := (featureImportance.map Prod.snd).sum / (featureImportance.length : ℚ)
      base1 * (9/10 + avg * (2/10))
  round2 (min (max base2 25) 500)

/-- `ScoringService._get_scorer`: lazy registration of the vertical's scorer.
`LeadScorer(vertical)` constructs its `ModelConfig` and `FeatureEngineer` and
loads the model artifact (`loadOutcome` is that load's result); on success
the vertical is registered and its threshold and market adjustments cached
from a fresh `ModelConfig`. -/
def ScoringService.get_scorer (st : ServiceState) (vertical : String)
    (loadOutcome : Except String Unit) : Except String ServiceState :=
  if st.registered.contains vertical then .ok st
  else
    match ModelConfig.init vertical none true with
    | .error e => .error e
    | .ok _ =>
      match FeatureEngineer.init vertical true with
      | .error e => .error e
      | .ok _ =>
        match loadOutcome with
        | .error e => .error e
        | .ok _ =>
          match ModelConfig.init vertical none true with
          | .error e => .error e
          | .ok mc =>
            match mc.getScoringThreshold with
            | .error e => .error e
            | .ok (thr, mc') =>
              .ok { st with
                    registered := st.registered ++ [vertical],
                    thresholds := aset vertical thr st.thresholds,
                    marketAdjustments :=
                      aset vertical mc'.getMarketAdjustments st.marketAdjustments }

/-- `ScoringService.score_lead`.  `leadDataNonempty` is the truthiness of the
lead-data dict; `loadOutcome` is the result of loading the vertical's model
artifact on first access; and `scorerOutcome` is what
`scorer.score_lead(lead_data)` would produce.  `modelVersion` stands for
`scorer.get_model_version()`, which is called but not defined in the source
tree (Modelled from the spec: it reports the scorer's current model version).
The whole body sits in one `try`, so a validation failure is caught and
recorded like any scoring failure.  The returned state is the service state
after the call. -/
def ScoringService.score_lead (st : ServiceState) (vertical : String)
    (leadDataNonempty : Bool) (loadOutcome : Except String Unit)
    (scorerOutcome : Except String ScorerOut) (modelVersion : String) :
    Except String ScoringResult × ServiceState :=
  if vertical = "" ∨ ¬ leadDataNonempty then
    (.error "Lead scoring failed: Missing required parameters", record_error st vertical)
  else if agetD vertical st.circuitOpen false then
    (.ok (get_fallback_score st vertical), st)
  else
    match ScoringService.get_scorer st vertical loadOutcome with
    | .error e => (.error ("Lead scoring failed: " ++ e), record_error st vertical)
    | .ok st1 =>
      match scorerOutcome with
      | .error e => (.error ("Lead scoring failed: " ++ e), record_error st1 vertical)
      | .ok r =>
        let adjusted := apply_market_adjustments st1 vertical r.score r.confidence
        let price := service_calculate_price vertical adjusted r.featureImportance
        let st2 := record_success st1 vertical
        (.ok { score := adjusted, originalScore := some r.score,
               confidence := r.confidence, price := price,
               marketFactors := agetD vertical st1.marketAdjustments [],
               featureImportance := r.featureImportance,
               modelVersion := modelVersion,
               threshold := agetD vertical st1.thresholds (65/100),
               fallback := false }, st2)

/-- A per-vertical entry of the map `reload_models` returns. -/
inductive ReloadStatus where
  | succeeded (version : ℚ) (threshold : ℚ)
  | failed (error : String)
deriving DecidableEq, Repr

/-- One iteration of the `reload_models` loop for vertical `v`: reload the
scorer, rebuild its `ModelConfig`, refresh the threshold and market
adjustments.  `outcome` is the model reload's oracle: the freshly loaded
model version, or the underlying failure.  Any exception is caught and turned
into a failed status for this vertical only.  `scorer.get_model_version()` is
called but not defined in the source tree (Modelled from the spec: it reports
the scorer's current model version, here the reloaded one). -/
def reloadVertical (st : ServiceState) (v : String) (outcome : Except String ℚ) :
    ReloadStatus × ServiceState :=
  match outcome with
  | .error e => (.failed ("Model reload failed: " ++ e), st)
  | .ok ver =>
    match ModelConfig.init v none true with
    | .error e => (.failed e, st)
    | .ok mc =>
      match mc.getScoringThreshold with
      | .error e => (.failed e, st)
      | .ok (thr, mc') =>
        (.succeeded ver thr,
         { st with thresholds := aset v thr st.thresholds,
                   marketAdjustments := aset v mc'.getMarketAdjustments st.marketAdjustments })

/-- The loop of `reload_models` over the registered verticals, threading the
service state. -/
def reloadModelsGo (outcome : String → Except String ℚ) :
    List String → ServiceState → List (String × ReloadStatus) × ServiceState
  | [], st => ([], st)
  | v :: vs, st =>
    let (r, st') := reloadVertical st v (outcome v)
    let (rest, st'') := reloadModelsGo outcome vs st'
    ((v, r) :: rest, st'')

/-- `ScoringService.reload_models`: under the service-wide lock, iterate all
currently registered verticals and reload each independently. -/
def ScoringService.reload_models (st : ServiceState)
    (outcome : String → Except String ℚ) :
    List (String × ReloadStatus) × ServiceState :=
  reloadModelsGo outcome st.registered st

/-! ## Association-list and breaker-accounting lemmas -/

theorem alookup_aset_self {β : Type} (k : String) (x : β) (l : List (String × β)) :
    alookup k (aset k x l) = some x := by
  induction l with
  | nil => simp [aset, alookup]
  | cons p r ih =>
    by_cases h : p.1 = k
    · simp [aset, h, alookup]
    · simp [aset, h, alookup, ih]

theorem alookup_aset_of_ne {β : Type} {k k' : String} (x : β) (l : List (String × β))
    (h : k' ≠ k) : alookup k (aset k' x l) = alookup k l := by
  induction l with
  | nil => simp [aset, alookup, h]
  | cons p r ih =>
    by_cases hp : p.1 = k'
    · simp [aset, hp, alookup, h, hp ▸ h]
    · simp only [aset, hp, if_false]
      by_cases hk : p.1 = k <;> simp [alookup, hk, ih]

theorem agetD_aset_self {β : Type} (k : String) (x d : β) (l : List (String × β)) :
    agetD k (aset k x l) d = x := by
  simp [agetD, alookup_aset_self]

theorem record_error_counts (st : ServiceState) (v : String) :
    agetD v (record_error st v).errorCounts 0 = agetD v st.errorCounts 0 + 1 := by
  unfold record_error
  by_cases h : agetD v st.errorCounts 0 + 1 ≥ 5 <;>
    simp [h, agetD_aset_self]

theorem record_error_opens (st : ServiceState) (v : String)
    (h : agetD v st.errorCounts 0 + 1 ≥ 5) :
    agetD v (record_error st v).circuitOpen false = true := by
  unfold record_error
  simp [h, agetD_aset_self]

theorem record_success_resets (st : ServiceState) (v : String) :
    agetD v (record_success st v).errorCounts 0 = 0 ∧
    agetD v (record_success st v).circuitOpen false = false := by
  unfold record_success
  simp [agetD_aset_self]

theorem get_scorer_preserves (st : ServiceState) (v : String)
    (lo : Except String Unit) (st1 : ServiceState)
    (h : ScoringService.get_scorer st v lo = .ok st1) :
    st1.errorCounts = st.errorCounts ∧ st1.circuitOpen = st.circuitOpen := by
  unfold ScoringService.get_scorer at h
  split at h
  next =>
    injection h with h'
    subst h'
    exact ⟨rfl, rfl⟩
  next =>
    split at h
    next => exact Except.noConfusion h
    next =>
      split at h
      next => exact Except.noConfusion h
      next =>
        split at h
        next => exact Except.noConfusion h
        next =>
          split at h
          next => exact Except.noConfusion h
          next =>
            split at h
            next => exact Except.noConfusion h
            next =>
              injection h with h'
              subst h'
              exact ⟨rfl, rfl⟩

theorem score_lead_open_fallback (st : ServiceState) (v : String)
    (lo : Except String Unit) (so : Except String ScorerOut) (ver : String)
    (hv : v ≠ "") (hopen : agetD v st.circuitOpen false = true) :
    ScoringService.score_lead st v true lo so ver
      = (.ok (get_fallback_score st v), st) := by
  unfold ScoringService.score_lead
  simp [hv, hopen]

theorem score_lead_error_increments (st : ServiceState) (v : String) (d : Bool)
    (lo : Except String Unit) (so : Except String ScorerOut) (ver : String)
    (herr : (ScoringService.score_lead st v d lo so ver).1.isOk = false) :
    agetD v (ScoringService.score_lead st v d lo so ver).2.errorCounts 0
      = agetD v st.errorCounts 0 + 1 ∧
    (4 ≤ agetD v st.errorCounts 0 →
      agetD v (ScoringService.score_lead st v d lo so ver).2.circuitOpen false
        = true) := by
  by_cases hval : (v = "" ∨ ¬ d = true)
  · have heq : ScoringService.score_lead st v d lo so ver
        = (.error "Lead scoring failed: Missing required parameters",
           record_error st v) := by
      unfold ScoringService.score_lead
      rw [if_pos hval]
    rw [heq]
    exact ⟨record_error_counts st v, fun h4 => record_error_opens st v (by omega)⟩
  · push_neg at hval
    obtain ⟨hv, hd⟩ := hval
    subst hd
    cases hopen : agetD v st.circuitOpen false with
    | true =>
      exfalso
      rw [score_lead_open_fallback st v lo so ver hv hopen] at herr
      simp [Except.isOk, Except.toBool] at herr
    | false =>
      cases hreg : ScoringService.get_scorer st v lo with
      | error e =>
        have heq : ScoringService.score_lead st v true lo so ver
            = (.error ("Lead scoring failed: " ++ e), record_error st v) := by
          simp [ScoringService.score_lead, hv, hopen, hreg]
        rw [heq]
        exact ⟨record_error_counts st v, fun h4 => record_error_opens st v (by omega)⟩
      | ok st1 =>
        obtain ⟨hc, _⟩ := get_scorer_preserves st v lo st1 hreg
        cases so with
        | error e =>
          have heq : ScoringService.score_lead st v true lo (.error e) ver
              = (.error ("Lead scoring failed: " ++ e), record_error st1 v) := by
            simp [ScoringService.score_lead, hv, hopen, hreg]
          rw [heq]
          constructor
          · rw [record_error_counts st1 v, hc]
          · intro h4
            refine record_error_opens st1 v ?_
            rw [hc]
            omega
        | ok r =>
          exfalso
          simp [ScoringService.score_lead, hv, hopen, hreg, Except.isOk,
            Except.toBool] at herr

theorem score_lead_success_resets (st : ServiceState) (v : String) (d : Bool)
    (lo : Except String Unit) (so : Except String ScorerOut) (ver : String)
    (r : ScoringResult)
    (hok : (ScoringService.score_lead st v d lo so ver).1 = .ok r)
    (hf : r.fallback = false) :
    agetD v (ScoringService.score_lead st v d lo so ver).2.errorCounts 0 = 0 ∧
    agetD v (ScoringService.score_lead st v d lo so ver).2.circuitOpen false
      = false := by
  by_cases hval : (v = "" ∨ ¬ d = true)
  · exfalso
    have heq : (ScoringService.score_lead st v d lo so ver).1
        = .error "Lead scoring failed: Missing required parameters" := by
      unfold ScoringService.score_lead
      rw [if_pos hval]
    rw [heq] at hok
    exact Except.noConfusion hok
  · push_neg at hval
    obtain ⟨hv, hd⟩ := hval
    subst hd
    cases hopen : agetD v st.circuitOpen false with
    | true =>
      exfalso
      rw [score_lead_open_fallback st v lo so ver hv hopen] at hok
      injection hok with h'
      rw [← h'] at hf
      simp [get_fallback_score] at hf
    | false =>
      cases hreg : ScoringService.get_scorer st v lo with
      | error e =>
        exfalso
        simp [ScoringService.score_lead, hv, hopen, hreg] at hok
      | ok st1 =>
        cases so with
        | error e =>
          exfalso
          simp [ScoringService.score_lead, hv, hopen, hreg] at hok
        | ok out =>
          have heq : (ScoringService.score_lead st v true lo (.ok out) ver).2
              = record_success st1 v := by
            simp [ScoringService.score_lead, hv, hopen, hreg]
          rw [heq]
          exact record_success_resets st1 v

/-! ## Claim theorems -/

/-- C9: `LeadScorer`'s derived confidence is exactly the fixed tier lookup —
0.9 iff score > 0.8 or score < 0.2, 0.7 iff 0.4 ≤ score ≤ 0.6, 0.8 otherwise —
with boundary exactness: 0.85 ↦ 0.9, 0.5 ↦ 0.7, 0.7 ↦ 0.8, and exactly 0.8 or
0.2 ↦ 0.8 while exactly 0.4 or 0.6 ↦ 0.7. -/
theorem confidence_tier_lookup :
    (∀ s : ℚ,
      (calculate_confidence s = 9/10 ↔ (s > 8/10 ∨ s < 2/10)) ∧
      (calculate_confidence s = 7/10 ↔ (4/10 ≤ s ∧ s ≤ 6/10)) ∧
      (calculate_confidence s = 8/10 ↔
        (¬ (s > 8/10 ∨ s < 2/10) ∧ ¬ (4/10 ≤ s ∧ s ≤ 6/10)))) ∧
    calculate_confidence (85/100) = 9/10 ∧
    calculate_confidence (5/10) = 7/10 ∧
    calculate_confidence (7/10) = 8/10 ∧
    calculate_confidence (8/10) = 8/10 ∧
    calculate_confidence (2/10) = 8/10 ∧
    calculate_confidence (4/10) = 7/10 ∧
    calculate_confidence (6/10) = 7/10 := by
  refine ⟨fun s => ?_, by with_unfolding_all decide, by with_unfolding_all decide,
    by with_unfolding_all decide, by with_unfolding_all decide,
    by with_unfolding_all decide, by with_unfolding_all decide,
    by with_unfolding_all decide⟩
  unfold calculate_confidence
  split_ifs with h1 h2
  · exact ⟨iff_of_true rfl h1,
      iff_of_false (by norm_num)
        (fun h => by rcases h1 with h1 | h1 <;> rcases h with ⟨ha, hb⟩ <;> linarith),
      iff_of_false (by norm_num) (fun h => h.1 h1)⟩
  · exact ⟨iff_of_false (by norm_num) h1, iff_of_true rfl h2,
      iff_of_false (by norm_num) (fun h => h.2 h2)⟩
  · exact ⟨iff_of_false (by norm_num) h1, iff_of_false (by norm_num) h2,
      iff_of_true rfl ⟨h1, h2⟩⟩

/-- The instance state `ModelConfig('auto')` would produce if the version
parse yielded 1.0.  In the source the constructor always raises — see
`ModelConfig.init` — so this is a hypothetical instance, used to state the
behavior of the instance methods (`get_scoring_threshold`, `update_config`)
the claims describe. -/
def mcAuto : ModelConfig :=
  { vertical := "auto", config := autoConfig, enableCaching := true,
    cache := [], version := 1 }

/-- `mcAuto` after a `get_scoring_threshold` call cached the default. -/
def mcAutoCached : ModelConfig :=
  { mcAuto with cache := [("scoring_threshold", 65/100)] }

/-- C2 (counterexample): the claim asserts construction succeeds for every
vertical in {auto, home, health, life, renters, commercial}; in fact it
succeeds for none of them.  `FEATURE_CONFIG` defines entries only for auto
and home, so the other four fail the membership check with
UnsupportedVertical — and auto and home pass that check only to crash one
line later, where `__init__` runs `float(CONFIG_VERSION)` on the two-dot
string `'1.0.0'`, which raises ValueError. -/
theorem vertical_config_no_vertical_constructs :
    ModelConfig.init "auto" none true
      = .error ("could not convert string to float: " ++ CONFIG_VERSION) ∧
    ModelConfig.init "home" none true
      = .error ("could not convert string to float: " ++ CONFIG_VERSION) ∧
    ModelConfig.init "health" none true
      = .error "Unsupported insurance vertical: health" ∧
    ModelConfig.init "life" none true
      = .error "Unsupported insurance vertical: life" ∧
    ModelConfig.init "renters" none true
      = .error "Unsupported insurance vertical: renters" ∧
    ModelConfig.init "commercial" none true
      = .error "Unsupported insurance vertical: commercial" := by
  with_unfolding_all decide

/-- C2 (amended): construction never succeeds for any vertical string.
Verticals without a `FEATURE_CONFIG` entry — everything except auto and home,
including health, life, renters and commercial — fail with
UnsupportedVertical; auto and home fail with the ValueError from
`float('1.0.0')` before any threshold can be read.  No instance is ever
constructed, so `getThreshold` is unreachable in the program; on a
hypothetical instance carrying the default auto config it returns the global
default 0.65, which is in [0,1]. -/
theorem vertical_config_construction_always_fails (v : String) :
    (ModelConfig.init v none true).isOk = false ∧
    (v ≠ "auto" → v ≠ "home" →
      ModelConfig.init v none true
        = .error ("Unsupported insurance vertical: " ++ v)) ∧
    ((v = "auto" ∨ v = "home") →
      ModelConfig.init v none true
        = .error ("could not convert string to float: " ++ CONFIG_VERSION)) ∧
    (mcAuto.getScoringThreshold = .ok (65/100, mcAutoCached) ∧
      (0 : ℚ) ≤ 65/100 ∧ (65 : ℚ)/100 ≤ 1) := by
  have hfloat : ∀ w, alookup w FEATURE_CONFIG ≠ none →
      ModelConfig.init w none true
        = .error ("could not convert string to float: " ++ CONFIG_VERSION) := by
    intro w hw
    unfold ModelConfig.init
    cases hl : alookup w FEATURE_CONFIG with
    | none => exact absurd hl hw
    | some base =>
      have hp : pyFloat CONFIG_VERSION = none := by with_unfolding_all decide
      rw [hp]
  by_cases hv : v = "auto" ∨ v = "home"
  · have hsome : alookup v FEATURE_CONFIG ≠ none := by
      rcases hv with rfl | rfl <;> with_unfolding_all decide
    refine ⟨?_, ?_, fun _ => hfloat v hsome, by with_unfolding_all decide,
      by norm_num, by norm_num⟩
    · rw [hfloat v hsome]
      rfl
    · intro h1 h2
      rcases hv with rfl | rfl
      · exact absurd rfl h1
      · exact absurd rfl h2
  · push_neg at hv
    obtain ⟨h1, h2⟩ := hv
    have hl : alookup v FEATURE_CONFIG = none := by
      simp [FEATURE_CONFIG, alookup, Ne.symm h1, Ne.symm h2]
    have herr : ModelConfig.init v none true
        = .error ("Unsupported insurance vertical: " ++ v) := by
      simp [ModelConfig.init, hl]
    refine ⟨by rw [herr]; rfl, fun _ _ => herr, fun hc => ?_,
      by with_unfolding_all decide, by norm_num, by norm_num⟩
    rcases hc with rfl | rfl
    · exact absurd rfl h1
    · exact absurd rfl h2

/-- C2 (witness): the amended theorem applied at `"auto"` and at `"health"`. -/
theorem vertical_config_construction_always_fails_witness :
    (("auto" : String) = "auto" ∨ ("auto" : String) = "home") ∧
    ModelConfig.init "auto" none true
      = .error ("could not convert string to float: " ++ CONFIG_VERSION) ∧
    (("health" : String) ≠ "auto" ∧ ("health" : String) ≠ "home") ∧
    ModelConfig.init "health" none true
      = .error "Unsupported insurance vertical: health" :=
  ⟨Or.inl rfl,
   (vertical_config_construction_always_fails "auto").2.2.1 (Or.inl rfl),
   ⟨by decide, by decide⟩,
   (vertical_config_construction_always_fails "health").2.1
     (by decide) (by decide)⟩

/-- C6 (counterexample): starting from a reachable `"auto"` instance whose
cache holds the derived threshold, an update with a valid key but a failing
persistence write raises — yet the version stays bumped from 1 to 1.1 and the
cache stays cleared, so the observable state is not "exactly as it was before
the call"; only the config mapping is rolled back. -/
theorem update_config_persist_failure_state_leak :
    mcAuto.getScoringThreshold = .ok (65/100, mcAutoCached) ∧
    (mcAutoCached.updateConfig [("feature_weights", .ratDict [("age", 1/2)])]
        true false).1.isOk = false ∧
    (mcAutoCached.updateConfig [("feature_weights", .ratDict [("age", 1/2)])]
        true false).2
      = { mcAutoCached with version := 1 + 1/10, cache := [] } ∧
    ({ mcAutoCached with version := 1 + 1/10, cache := [] } : ModelConfig)
      ≠ mcAutoCached := by
  with_unfolding_all decide

/-- C6 (amended): `update_config` is atomic on validation failure (the state
is exactly unchanged and the call raises); on a persistence failure it raises
and rolls back the config mapping, but the version remains bumped by 0.1 and
the cache remains cleared; on success it applies the update, bumps the
version and clears the cache. -/
theorem update_config_rollback_semantics (m : ModelConfig) (newConfig : Config)
    (persist persistOk : Bool) :
    (∀ e, validateConfigOverride m.vertical newConfig = .error e →
      m.updateConfig newConfig persist persistOk = (.error e, m)) ∧
    (validateConfigOverride m.vertical newConfig = .ok () → persist = true →
      persistOk = false →
      (m.updateConfig newConfig persist persistOk).1.isOk = false ∧
      (m.updateConfig newConfig persist persistOk).2.config = m.config ∧
      (m.updateConfig newConfig persist persistOk).2.version = m.version + 1/10 ∧
      (m.updateConfig newConfig persist persistOk).2.cache
        = (if m.enableCaching then [] else m.cache)) ∧
    (validateConfigOverride m.vertical newConfig = .ok () →
      (persist = true → persistOk = true) →
      m.updateConfig newConfig persist persistOk
        = (.ok true,
           { m with config := dictUpdate m.config newConfig,
                    version := m.version + 1/10,
                    cache := if m.enableCaching then [] else m.cache })) := by
  refine ⟨fun e he => ?_, fun hv hp hpo => ?_, fun hv himp => ?_⟩
  · simp [ModelConfig.updateConfig, he]
  · subst hp hpo
    simp [ModelConfig.updateConfig, hv, Except.isOk, Except.toBool]
  · unfold ModelConfig.updateConfig
    rw [hv]
    cases persist with
    | false => simp
    | true => simp [himp rfl]

/-- C6 (witness): the amended theorem applied at the concrete leak scenario. -/
theorem update_config_rollback_witness :
    (mcAutoCached.updateConfig [("feature_weights", .ratDict [("age", 1/2)])]
        true false).1.isOk = false ∧
    (mcAutoCached.updateConfig [("feature_weights", .ratDict [("age", 1/2)])]
        true false).2.config = mcAutoCached.config ∧
    (mcAutoCached.updateConfig [("feature_weights", .ratDict [("age", 1/2)])]
        true false).2.version = mcAutoCached.version + 1/10 ∧
    (mcAutoCached.updateConfig [("feature_weights", .ratDict [("age", 1/2)])]
        true false).2.cache
      = (if mcAutoCached.enableCaching then [] else mcAutoCached.cache) :=
  (update_config_rollback_semantics mcAutoCached
      [("feature_weights", .ratDict [("age", 1/2)])] true false).2.1
    (by with_unfolding_all decide) rfl rfl

/-- C8: the validation part of the claim holds (`update_feature_importance`
fails iff a score is outside [0,1] and merges the scores on success), but the
alert part does not: the source merges into `FEATURE_IMPORTANCE` *before*
`_analyze_importance_trends` reads it, so the computed change is always 0 and
no alert ever fires.  Here the tracker holds age ↦ 0.1 (from an earlier
update) and the new update carries age ↦ 0.9 — a change of 0.8, far above the
default threshold 0.2 — yet the alert list is empty. -/
theorem importance_alert_never_fires :
    update_feature_importance autoConfig [] [("age", 1/10)]
      = .ok ([("age", 1/10)], []) ∧
    update_feature_importance autoConfig [("age", 1/10)] [("age", 9/10)]
      = .ok ([("age", 9/10)], []) ∧
    |(9 : ℚ)/10 - 1/10| > 2/10 ∧
    update_feature_importance autoConfig [("age", 1/10)] [("age", 3/2)]
      = .error "Importance scores must be between 0 and 1" := by
  with_unfolding_all decide

/-- C5: the source refits the per-column transformers on every call instead
of fitting once and reusing them.  With the encoder state threaded from the
first call (classes [alpha, beta], where beta encodes to 1), a second call on
the same instance refits via `fit_transform` (classes become [beta, gamma])
and the identical value beta now encodes to 0 — identical column values are
not encoded identically across calls. -/
theorem categorical_encoder_refit_inconsistent :
    preprocess_categorical autoConfig []
        [("usage_type", List.replicate 10 "alpha" ++ List.replicate 10 "beta")]
      = ([List.replicate 10 0 ++ List.replicate 10 1],
         [("usage_type", ["alpha", "beta"])]) ∧
    preprocess_categorical autoConfig [("usage_type", ["alpha", "beta"])]
        [("usage_type", List.replicate 10 "beta" ++ List.replicate 10 "gamma")]
      = ([List.replicate 10 0 ++ List.replicate 10 1],
         [("usage_type", ["beta", "gamma"])]) ∧
    (1 : ℚ) ≠ 0 := by
  with_unfolding_all decide

/-- C3: for every score in [0,1] and every market-conditions map, including
the empty one, `calculate_price` equals the claim's decomposition — the
two-decimal rounding of the clamp to [25, 500] of (50 + score·100) times the
per-vertical multiplier, times each supplied condition matching a known
market adjustment, times the seasonal factor (1.1 in months {1,4,7,10}, else
1.0), with the clamp applied last — and the result lies in [25.00, 500.00]. -/
theorem calculate_price_bounds_and_decomposition (vertical : String) (score : ℚ)
    (conds : List String) (month : ℕ) (_h0 : 0 ≤ score) (_h1 : score ≤ 1) :
    calculate_price vertical score conds month
      = round2 (min (max (preClampPrice vertical score conds month) 25) 500) ∧
    25 ≤ calculate_price vertical score conds month ∧
    calculate_price vertical score conds month ≤ 500 := by
  have hdecomp : calculate_price vertical score conds month
      = round2 (min (max (preClampPrice vertical score conds month) 25) 500) := by
    simp only [calculate_price, preClampPrice]
    rw [foldl_market_adjust]
  have hb := round2_bounds
    (le_min (le_max_right (preClampPrice vertical score conds month) 25)
      (by norm_num))
    (min_le_right (max (preClampPrice vertical score conds month) 25) 500)
  exact ⟨hdecomp, hdecomp ▸ hb.1, hdecomp ▸ hb.2⟩

/-- C3 (witness): the theorem at the spec's scenario — an auto lead scoring
0.85 with no market conditions prices at 135.00 off-season and 148.50 with
the seasonal boost. -/
theorem calculate_price_bounds_witness :
    (0 : ℚ) ≤ 85/100 ∧ (85 : ℚ)/100 ≤ 1 ∧
    (calculate_price "auto" (85/100) [] 3
        = round2 (min (max (preClampPrice "auto" (85/100) [] 3) 25) 500) ∧
      25 ≤ calculate_price "auto" (85/100) [] 3 ∧
      calculate_price "auto" (85/100) [] 3 ≤ 500) ∧
    calculate_price "auto" (85/100) [] 3 = 135 ∧
    calculate_price "auto" (85/100) [] 1 = 297/2 :=
  ⟨by norm_num, by norm_num,
   calculate_price_bounds_and_decomposition "auto" (85/100) [] 3
     (by norm_num) (by norm_num),
   by with_unfolding_all decide, by with_unfolding_all decide⟩

/-- The status `reload_models` reports for one vertical, as a function of
that vertical's own reload outcome alone. -/
def reloadStatus (v : String) (o : Except String ℚ) : ReloadStatus :=
  match o with
  | .error e => .failed ("Model reload failed: " ++ e)
  | .ok ver =>
    match ModelConfig.init v none true with
    | .error e => .failed e
    | .ok mc =>
      match mc.getScoringThreshold with
      | .error e => .failed e
      | .ok (thr, _) => .succeeded ver thr

theorem reloadVertical_fst (st : ServiceState) (v : String) (o : Except String ℚ) :
    (reloadVertical st v o).1 = reloadStatus v o := by
  unfold reloadVertical reloadStatus
  cases o with
  | error e => rfl
  | ok ver =>
    cases h : ModelConfig.init v none true with
    | error e => rfl
    | ok mc =>
      cases h2 : mc.getScoringThreshold with
      | error e => simp only [h2]
      | ok p =>
        obtain ⟨thr, mc'⟩ := p
        simp only [h2]

theorem reloadModelsGo_fst (outcome : String → Except String ℚ) (vs : List String) :
    ∀ st : ServiceState,
      (reloadModelsGo outcome vs st).1
        = vs.map (fun v => (v, reloadStatus v (outcome v))) := by
  induction vs with
  | nil => intro st; rfl
  | cons v rest ih =>
    intro st
    unfold reloadModelsGo
    cases hrv : reloadVertical st v (outcome v) with
    | mk r st' =>
      have hr : r = reloadStatus v (outcome v) := by
        rw [← reloadVertical_fst st v (outcome v), hrv]
      simp [hrv, hr, ih st']

theorem modelConfig_init_always_fails (v : String) (o : Option Config)
    (c : Bool) : ∃ e, ModelConfig.init v o c = .error e := by
  unfold ModelConfig.init
  cases hl : alookup v FEATURE_CONFIG with
  | none => exact ⟨_, rfl⟩
  | some base =>
    have hp : pyFloat CONFIG_VERSION = none := by with_unfolding_all decide
    rw [hp]
    exact ⟨_, rfl⟩

theorem reloadStatus_always_failed (v : String) (o : Except String ℚ) :
    ∃ e, reloadStatus v o = .failed e := by
  unfold reloadStatus
  cases o with
  | error e => exact ⟨_, rfl⟩
  | ok ver =>
    obtain ⟨e, he⟩ := modelConfig_init_always_fails v none true
    rw [he]
    exact ⟨e, rfl⟩

/-- C7 (counterexample): with auto and home registered, auto's artifact
corrupted and home's artifact reloading successfully, home still appears as a
failure: after the successful `reload_model()`, the loop body constructs
`ModelConfig(vertical)` (scoring_service.py:143), whose `float('1.0.0')`
raises, and the per-vertical except records {success: false, error} — so the
claimed {success: true, version, threshold} entry is never produced. -/
theorem reload_success_entry_never_produced :
    (ScoringService.reload_models
        { ServiceState.fresh with registered := ["auto", "home"] }
        (fun v => if v = "auto" then .error "corrupted artifact" else .ok 2)).1
      = [("auto", .failed "Model reload failed: corrupted artifact"),
         ("home", .failed ("could not convert string to float: " ++ CONFIG_VERSION))] ∧
    (ReloadStatus.failed ("could not convert string to float: " ++ CONFIG_VERSION))
      ≠ .succeeded 2 (65/100) := by
  with_unfolding_all decide

/-- C7 (amended): `reload_models` iterates the registered verticals
independently: the returned status map has exactly one entry per registered
vertical, each entry depends only on that vertical's own reload outcome, and
one vertical's failure neither aborts nor affects the others; a corrupted
artifact appears as `failed` with the reload error.  But no vertical ever
appears as `succeeded (version, threshold)`: even when its artifact reloads
successfully, the loop body then constructs `ModelConfig(vertical)`, which
always raises the ValueError from `float('1.0.0')`, so that vertical is also
recorded as a failure.  Concretely, with auto and home registered and only
auto's artifact corrupted, a single call reports both as failures — auto with
the reload error, home with the float conversion error. -/
theorem reload_models_isolation :
    (∀ (st : ServiceState) (outcome : String → Except String ℚ),
      (ScoringService.reload_models st outcome).1
        = st.registered.map (fun v => (v, reloadStatus v (outcome v)))) ∧
    (∀ (v : String) (o : Except String ℚ), ∃ e, reloadStatus v o = .failed e) ∧
    (∀ e, reloadStatus "auto" (.error e) = .failed ("Model reload failed: " ++ e)) ∧
    (ScoringService.reload_models
        { ServiceState.fresh with registered := ["auto", "home"] }
        (fun v => if v = "auto" then .error "corrupted artifact" else .ok 2)).1
      = [("auto", .failed "Model reload failed: corrupted artifact"),
         ("home", .failed ("could not convert string to float: " ++ CONFIG_VERSION))] := by
  refine ⟨fun st outcome => reloadModelsGo_fst outcome st.registered st,
    reloadStatus_always_failed, fun e => rfl, ?_⟩
  with_unfolding_all decide

/-- One auto scoring call whose underlying model raises. -/
def failCallAuto (st : ServiceState) : ServiceState :=
  (ScoringService.score_lead st "auto" true (.ok ())
    (.error "model failure") "1").2

/-- The service state after five consecutive failing auto calls from a fresh
service. -/
def openedState : ServiceState :=
  failCallAuto (failCallAuto (failCallAuto (failCallAuto (failCallAuto
    ServiceState.fresh))))

/-- C1 (counterexample): after five consecutive failures open the breaker
(counter 5), a call whose underlying scorer *would* succeed still returns the
fallback result and leaves the breaker open with the counter at 5.  The
success path — the only code that closes the breaker and resets the counter —
is unreachable while the breaker is open, so the claim's "a single subsequent
successful score immediately closes the breaker and resets the
consecutive-error counter to 0" is false: no subsequent call can score
successfully, and the breaker never closes. -/
theorem breaker_does_not_close_on_would_be_success :
    agetD "auto" openedState.circuitOpen false = true ∧
    agetD "auto" openedState.errorCounts 0 = 5 ∧
    ScoringService.score_lead openedState "auto" true (.ok ())
        (.ok { score := 9/10, confidence := 9/10, featureImportance := [] }) "1"
      = (.ok (get_fallback_score openedState "auto"), openedState) ∧
    (get_fallback_score openedState "auto").fallback = true ∧
    agetD "auto" (ScoringService.score_lead openedState "auto" true (.ok ())
        (.ok { score := 9/10, confidence := 9/10, featureImportance := [] })
        "1").2.circuitOpen false = true ∧
    agetD "auto" (ScoringService.score_lead openedState "auto" true (.ok ())
        (.ok { score := 9/10, confidence := 9/10, featureImportance := [] })
        "1").2.errorCounts 0 = 5 := by
  with_unfolding_all decide

/-- C1 (amended): when a vertical's breaker is open, `score_lead` returns the
fixed fallback result {score 0.5, confidence 0.3, price 75.00, model_version
"fallback", fallback = true} for every model oracle — the model is not
invoked — and leaves the state unchanged; every failure increments the
consecutive-error counter and the breaker opens once it reaches 5; and the
success path, when reached (which requires the breaker to be closed), resets
the counter to 0 and closes the breaker.  Because the open-breaker branch
returns before the success path, an open breaker can never be closed by
`score_lead`. -/
theorem circuit_breaker_semantics (st : ServiceState) (v : String)
    (lo : Except String Unit) (so : Except String ScorerOut) (ver : String) :
    (agetD v st.circuitOpen false = true → v ≠ "" →
      ScoringService.score_lead st v true lo so ver
        = (.ok (get_fallback_score st v), st) ∧
      (get_fallback_score st v).score = 1/2 ∧
      (get_fallback_score st v).confidence = 3/10 ∧
      (get_fallback_score st v).price = 75 ∧
      (get_fallback_score st v).modelVersion = "fallback" ∧
      (get_fallback_score st v).fallback = true) ∧
    (∀ d, (ScoringService.score_lead st v d lo so ver).1.isOk = false →
      agetD v (ScoringService.score_lead st v d lo so ver).2.errorCounts 0
        = agetD v st.errorCounts 0 + 1 ∧
      (4 ≤ agetD v st.errorCounts 0 →
        agetD v (ScoringService.score_lead st v d lo so ver).2.circuitOpen false
          = true)) ∧
    (∀ d r, (ScoringService.score_lead st v d lo so ver).1 = .ok r →
      r.fallback = false →
      agetD v (ScoringService.score_lead st v d lo so ver).2.errorCounts 0 = 0 ∧
      agetD v (ScoringService.score_lead st v d lo so ver).2.circuitOpen false
        = false) :=
  ⟨fun hopen hv =>
    ⟨score_lead_open_fallback st v lo so ver hv hopen, rfl, rfl, rfl, rfl, rfl⟩,
   fun d herr => score_lead_error_increments st v d lo so ver herr,
   fun d r hok hf => score_lead_success_resets st v d lo so ver r hok hf⟩

/-- C1 (witness): the amended theorem applied at the concrete opened state. -/
theorem circuit_breaker_semantics_witness :
    (agetD "auto" openedState.circuitOpen false = true ∧ ("auto" : String) ≠ "") ∧
    ScoringService.score_lead openedState "auto" true (.ok ()) (.error "x") "1"
      = (.ok (get_fallback_score openedState "auto"), openedState) :=
  ⟨⟨by with_unfolding_all decide, by decide⟩,
   ((circuit_breaker_semantics openedState "auto" (.ok ()) (.error "x") "1").1
     (by with_unfolding_all decide) (by decide)).1⟩

/-- One auto scoring call with an empty lead record (rejected before any
model is touched; the oracles are irrelevant). -/
def emptyRecordCallAuto (st : ServiceState) : ServiceState :=
  (ScoringService.score_lead st "auto" false (.ok ())
    (.ok { score := 9/10, confidence := 9/10, featureImportance := [] }) "1").2

/-- The service state after five consecutive empty-record auto requests from
a fresh service. -/
def invalidRequestsState : ServiceState :=
  emptyRecordCallAuto (emptyRecordCallAuto (emptyRecordCallAuto
    (emptyRecordCallAuto (emptyRecordCallAuto ServiceState.fresh))))

/-- C10: an empty lead record is rejected inside the `try`, so it is recorded
like any scoring failure and increments the vertical's consecutive-error
counter without any model being touched; every failing call increments the
counter; and concretely, five consecutive empty-record requests for auto open
its breaker (counter 5), after which a valid request with a succeeding scorer
receives the fallback result instead of being scored. -/
theorem invalid_requests_trip_breaker (st : ServiceState) (v : String)
    (lo : Except String Unit) (so : Except String ScorerOut) (ver : String) :
    ScoringService.score_lead st v false lo so ver
      = (.error "Lead scoring failed: Missing required parameters",
         record_error st v) ∧
    (∀ d, (ScoringService.score_lead st v d lo so ver).1.isOk = false →
      agetD v (ScoringService.score_lead st v d lo so ver).2.errorCounts 0
        = agetD v st.errorCounts 0 + 1) ∧
    (agetD "auto" invalidRequestsState.circuitOpen false = true ∧
     agetD "auto" invalidRequestsState.errorCounts 0 = 5 ∧
     ScoringService.score_lead invalidRequestsState "auto" true (.ok ())
        (.ok { score := 9/10, confidence := 9/10, featureImportance := [] }) "1"
       = (.ok (get_fallback_score invalidRequestsState "auto"),
          invalidRequestsState)) := by
  refine ⟨?_, fun d herr => (score_lead_error_increments st v d lo so ver herr).1,
    by with_unfolding_all decide⟩
  unfold ScoringService.score_lead
  rw [if_pos (Or.inr (by simp))]

/-- C10 (witness): the theorem applied at a fresh service; the first
empty-record call fails and bumps auto's counter from 0 to 1. -/
theorem invalid_requests_trip_breaker_witness :
    ((ScoringService.score_lead ServiceState.fresh "auto" false (.ok ())
        (.ok { score := 9/10, confidence := 9/10, featureImportance := [] })
        "1").1.isOk = false) ∧
    agetD "auto" (ScoringService.score_lead ServiceState.fresh "auto" false
        (.ok ())
        (.ok { score := 9/10, confidence := 9/10, featureImportance := [] })
        "1").2.errorCounts 0
      = agetD "auto" ServiceState.fresh.errorCounts 0 + 1 :=
  ⟨by with_unfolding_all decide,
   (invalid_requests_trip_breaker ServiceState.fresh "auto" (.ok ())
       (.ok { score := 9/10, confidence := 9/10, featureImportance := [] })
       "1").2.1 false (by with_unfolding_all decide)⟩

/-- The width of one text column's block: 100 on the hashing path
(vocabulary over 10000), the vocabulary size capped at 100 on the TF-IDF
path. -/
def textBlockWidth (cells : List (List String)) : ℕ :=
  if (distinctTokens cells).length > 10000 then 100
  else min (distinctTokens cells).length 100

theorem mapE_length {α β : Type} (f : α → Except String β) :
    ∀ (l : List α) (r : List β), mapE f l = .ok r → r.length = l.length := by
  intro l
  induction l with
  | nil =>
    intro r h
    unfold mapE at h
    injection h with h'
    subst h'
    rfl
  | cons a as ih =>
    intro r h
    unfold mapE at h
    cases hf : f a with
    | error e => simp [hf] at h
    | ok b =>
      simp only [hf] at h
      cases hr : mapE f as with
      | error e => simp [hr] at h
      | ok bs =>
        simp only [hr] at h
        injection h with h'
        subst h'
        simp [ih bs hr]

theorem preprocess_numerical_length (cfg : Config)
    (cols : List (String × List (Option ℚ))) (r : List (List ℚ))
    (h : preprocess_numerical cfg cols = .ok r) : r.length = cols.length := by
  unfold preprocess_numerical at h
  cases hs : scalingMethod cfg with
  | none => simp [hs] at h
  | some sc =>
    simp only [hs] at h
    exact mapE_length _ cols r h

theorem preprocess_categorical_length (cfg : Config) :
    ∀ (cols : List (String × List String)) (encoders : List (String × List String)),
      (preprocess_categorical cfg encoders cols).1.length = cols.length := by
  intro cols
  induction cols with
  | nil => intro e; rfl
  | cons c rest ih =>
    intro e
    obtain ⟨name, cells⟩ := c
    simp only [preprocess_categorical]
    simp [ih]

theorem insertSorted_length (x : String) : ∀ l : List String,
    (insertSorted x l).length = l.length + 1
  | [] => rfl
  | y :: ys => by
    unfold insertSorted
    split
    · rfl
    · simp [insertSorted_length x ys]

theorem sortStrings_length : ∀ l : List String, (sortStrings l).length = l.length
  | [] => rfl
  | x :: xs => by
    unfold sortStrings
    rw [insertSorted_length, sortStrings_length xs]
    rfl

theorem preprocessTextCol_length (vs : List (String × Vectorizer)) (name : String)
    (cells : List (List String)) (block : List (List ℚ))
    (vs' : List (String × Vectorizer))
    (h : preprocessTextCol vs name cells = .ok (block, vs')) :
    block.length = textBlockWidth cells := by
  simp only [preprocessTextCol] at h
  unfold textBlockWidth
  split at h
  next hgt =>
    rw [if_pos hgt]
    injection h with h'
    have hfst := congrArg Prod.fst h'
    simp only at hfst
    rw [← hfst]
    simp
  next hle =>
    rw [if_neg hle]
    split at h
    next => exact Except.noConfusion h
    next =>
      injection h with h'
      have hfst := congrArg Prod.fst h'
      simp only at hfst
      rw [← hfst]
      simp [List.length_take, sortStrings_length, Nat.min_comm]

theorem preprocess_text_length :
    ∀ (cols : List (String × List (List String)))
      (vs : List (String × Vectorizer)) (blocks : List (List ℚ))
      (vs' : List (String × Vectorizer)),
      preprocess_text vs cols = .ok (blocks, vs') →
      blocks.length = (cols.map (fun c => textBlockWidth c.2)).sum := by
  intro cols
  induction cols with
  | nil =>
    intro vs blocks vs' h
    unfold preprocess_text at h
    simp at h
    simp [h.1]
  | cons c rest ih =>
    intro vs blocks vs' h
    obtain ⟨name, cells⟩ := c
    unfold preprocess_text at h
    cases hcol : preprocessTextCol vs name cells with
    | error e => simp [hcol] at h
    | ok p =>
      obtain ⟨block, vs1⟩ := p
      simp only [hcol] at h
      cases hrest : preprocess_text vs1 rest with
      | error e => simp [hrest] at h
      | ok q =>
        obtain ⟨blocks1, vs2⟩ := q
        simp only [hrest] at h
        injection h with h'
        have hb := congrArg Prod.fst h'
        simp only at hb
        rw [← hb]
        simp [List.length_append,
          preprocessTextCol_length vs name cells block vs1 hcol,
          ih vs1 blocks1 vs2 hrest]

/-- A one-row auto lead batch, the usual serving shape
(`pd.DataFrame([lead_data])`), with one token per text cell. -/
def autoBatch1 : Batch :=
  [ ("age", .nums [some 30]), ("driving_years", .nums [some 10]),
    ("vehicle_age", .nums [some 5]), ("annual_mileage", .nums [some 12000]),
    ("vehicle_make", .strs ["Toyota"]), ("vehicle_model", .strs ["Camry"]),
    ("usage_type", .strs ["personal"]), ("coverage_type", .strs ["full"]),
    ("occupation", .texts [["engineer"]]), ("location", .texts [["california"]]) ]

/-- An auto `FeatureEngineer` with empty transformer registries and the
transform cache off — the instance state the constructor would produce.  In
the source the constructor itself always raises (via `ModelConfig`'s
`float('1.0.0')` version parse), so this is a hypothetical instance used to
state the behavior of `transform_features` the claim describes. -/
def feAuto : FeatureEngineer :=
  { featureConfig := autoConfig, encoders := [], vectorizers := [],
    useCache := false }

/-- The feature matrix `transform_features` produces for `autoBatch1`:
ten columns, not 208. -/
def mAuto1 : List (List ℚ) :=
  [[0], [0], [0], [0], [0], [0], [0], [0], [1], [1]]

/-- `feAuto` after transforming `autoBatch1`. -/
def feAuto1 : FeatureEngineer :=
  { feAuto with
    encoders := [("vehicle_make", ["Other"]), ("vehicle_model", ["Other"]),
                 ("usage_type", ["Other"]), ("coverage_type", ["Other"])],
    vectorizers := [("occupation", .tfidf ["engineer"]),
                    ("location", .tfidf ["california"])] }

/-- C4 (counterexample): the feature-vector width is not the claimed fixed
|numerical| + |categorical| + 100·|text|.  On the TF-IDF path the text block
is only min(vocabulary, 100) wide: a one-row auto batch whose two text
columns hold one token each transforms to 4 + 4 + 1 + 1 = 10 columns, while
the claim demands 4 + 4 + 100·2 = 208.  (In the source no engineer is even
constructible — the constructor raises via `float('1.0.0')`, first conjunct —
so the claim is refuted at the method level, on the instance state the
constructor would otherwise produce.) -/
theorem tfidf_block_width_not_100 :
    FeatureEngineer.init "auto" false
      = .error ("could not convert string to float: " ++ CONFIG_VERSION) ∧
    transform_features feAuto [] autoBatch1 true
      = .ok ((mAuto1, []), feAuto1, []) ∧
    mAuto1.length = 10 ∧
    (strListOf "numerical_features" autoConfig).length
      + (strListOf "categorical_features" autoConfig).length
      + 100 * (strListOf "text_features" autoConfig).length = 208 ∧
    (10 : ℕ) ≠ 208 := by
  with_unfolding_all decide

/-- C4 (amended): in the program as written no `FeatureEngineer` is
constructible (the constructor raises via `ModelConfig`'s `float('1.0.0')`),
so the claim's premise is never realized; at the method level, on any
instance, a successful (uncached) transform splits the batch into the
configured numerical, categorical and text columns and concatenates the
blocks in that order; the numerical and categorical blocks are one column per
configured feature, and each text column contributes `textBlockWidth` columns
— exactly 100 on the hashing path (vocabulary > 10000), but min(vocabulary,
100) on the TF-IDF path — so the total width is |numerical| + |categorical| +
Σ per-text-column width, which equals the claimed |numerical| +
|categorical| + 100·|text| only when every text column has at least 100
distinct tokens or takes the hashing path. -/
theorem transform_width_layout (fe : FeatureEngineer) (cache : TransformCache)
    (b : Batch) (ri : Bool) (m : List (List ℚ)) (imp : List (String × ℚ))
    (fe' : FeatureEngineer) (cache' : TransformCache)
    (hnc : (if fe.useCache then lookupCache b cache else none) = none)
    (h : transform_features fe cache b ri = .ok ((m, imp), fe', cache')) :
    ∃ numCols catCols textCols numB catB textB encoders1 vectorizers1,
      selectNumCols (strListOf "numerical_features" fe.featureConfig) b
        = .ok numCols ∧
      selectStrCols (strListOf "categorical_features" fe.featureConfig) b
        = .ok catCols ∧
      selectTextCols (strListOf "text_features" fe.featureConfig) b
        = .ok textCols ∧
      preprocess_numerical fe.featureConfig numCols = .ok numB ∧
      preprocess_categorical fe.featureConfig fe.encoders catCols
        = (catB, encoders1) ∧
      preprocess_text fe.vectorizers textCols = .ok (textB, vectorizers1) ∧
      m = numB ++ catB ++ textB ∧
      numB.length = (strListOf "numerical_features" fe.featureConfig).length ∧
      catB.length = (strListOf "categorical_features" fe.featureConfig).length ∧
      textCols.length = (strListOf "text_features" fe.featureConfig).length ∧
      textB.length = (textCols.map (fun c => textBlockWidth c.2)).sum ∧
      m.length = (strListOf "numerical_features" fe.featureConfig).length
        + (strListOf "categorical_features" fe.featureConfig).length
        + (textCols.map (fun c => textBlockWidth c.2)).sum := by
  simp only [transform_features] at h
  rw [hnc] at h
  split at h
  next hmiss => exact Except.noConfusion h
  next hmiss =>
    cases hnum : selectNumCols (strListOf "numerical_features" fe.featureConfig) b with
    | error e => simp [hnum] at h
    | ok numCols =>
      cases hcat : selectStrCols (strListOf "categorical_features" fe.featureConfig) b with
      | error e => simp [hnum, hcat] at h
      | ok catCols =>
        cases htext : selectTextCols (strListOf "text_features" fe.featureConfig) b with
        | error e => simp [hnum, hcat, htext] at h
        | ok textCols =>
          simp only [hnum, hcat, htext] at h
          cases hnb : preprocess_numerical fe.featureConfig numCols with
          | error e => simp [hnb] at h
          | ok numB =>
            simp only [hnb] at h
            obtain ⟨catB, encoders1, hcb⟩ :
                ∃ cb e1, preprocess_categorical fe.featureConfig fe.encoders catCols
                  = (cb, e1) := ⟨_, _, rfl⟩
            rw [hcb] at h
            cases htb : preprocess_text fe.vectorizers textCols with
            | error e => simp [htb] at h
            | ok p =>
              obtain ⟨textB, vectorizers1⟩ := p
              simp only [htb] at h
              injection h with h'
              have hm := congrArg (fun x => x.1.1) h'
              simp only at hm
              refine ⟨numCols, catCols, textCols, numB, catB, textB, encoders1,
                vectorizers1, rfl, rfl, rfl, hnb, hcb, htb, hm.symm,
                ?_, ?_, ?_, ?_, ?_⟩
              · rw [preprocess_numerical_length fe.featureConfig numCols numB hnb,
                  mapE_length _ _ _ hnum]
              · have hclen := preprocess_categorical_length fe.featureConfig
                  catCols fe.encoders
                rw [hcb] at hclen
                simp at hclen
                rw [hclen, mapE_length _ _ _ hcat]
              · exact mapE_length _ _ _ htext
              · exact preprocess_text_length textCols fe.vectorizers textB
                  vectorizers1 htb
              · rw [hm.symm]
                simp [List.length_append,
                  preprocess_numerical_length fe.featureConfig numCols numB hnb,
                  mapE_length _ _ _ hnum, mapE_length _ _ _ hcat,
                  preprocess_text_length textCols fe.vectorizers textB
                    vectorizers1 htb]
                have hclen := preprocess_categorical_length fe.featureConfig
                  catCols fe.encoders
                rw [hcb] at hclen
                simp at hclen
                rw [hclen, mapE_length _ _ _ hcat]
                ring

/-- C4 (witness): the amended theorem applied to the concrete one-row auto
batch with the cache empty. -/
theorem transform_width_layout_witness :
    ((if feAuto.useCache then lookupCache autoBatch1 [] else none) = none) ∧
    transform_features feAuto [] autoBatch1 true
      = .ok ((mAuto1, []), feAuto1, []) ∧
    ∃ numCols catCols textCols numB catB textB encoders1 vectorizers1,
      selectNumCols (strListOf "numerical_features" feAuto.featureConfig) autoBatch1
        = .ok numCols ∧
      selectStrCols (strListOf "categorical_features" feAuto.featureConfig) autoBatch1
        = .ok catCols ∧
      selectTextCols (strListOf "text_features" feAuto.featureConfig) autoBatch1
        = .ok textCols ∧
      preprocess_numerical feAuto.featureConfig numCols = .ok numB ∧
      preprocess_categorical feAuto.featureConfig feAuto.encoders catCols
        = (catB, encoders1) ∧
      preprocess_text feAuto.vectorizers textCols = .ok (textB, vectorizers1) ∧
      mAuto1 = numB ++ catB ++ textB ∧
      numB.length = (strListOf "numerical_features" feAuto.featureConfig).length ∧
      catB.length = (strListOf "categorical_features" feAuto.featureConfig).length ∧
      textCols.length = (strListOf "text_features" feAuto.featureConfig).length ∧
      textB.length = (textCols.map (fun c => textBlockWidth c.2)).sum ∧
      mAuto1.length = (strListOf "numerical_features" feAuto.featureConfig).length
        + (strListOf "categorical_features" feAuto.featureConfig).length
        + (textCols.map (fun c => textBlockWidth c.2)).sum :=
  ⟨rfl, by with_unfolding_all decide,
   transform_width_layout feAuto [] autoBatch1 true mAuto1 [] feAuto1 [] rfl
     (by with_unfolding_all decide)⟩

end MLService
